import Mathlib

/-!
Verification development for the rlviser UDP visualization client.

The development shallowly embeds the network-facing core of the program:
the wire codec for game-state snapshots and control values, the UDP
receiver loop's stale-tick filtering, the triple-buffered `GameStates`
model and its `advance` operation, the per-frame smoothing computations
(interpolation lerp amounts, angular-velocity rotation integration), the
camera target selection step, and the CLI port parsing.

Conventions of the embedding:
* Bytes are natural numbers; encoders emit values `< 256` and multi-byte
  integers are little-endian, with well-formedness side conditions
  (`… < 2 ^ 32`, `… < 2 ^ 64`) carried as explicit hypotheses.
* `f32` fields that are only stored and shipped (never computed with)
  are embedded as their raw 32-bit patterns (naturals `< 2 ^ 32`).
* `f32` arithmetic that the smoothing engine performs is embedded over
  `ℚ` where it is ring arithmetic, and over `ℝ` where vector norms are
  taken; IEEE rounding, infinities and NaNs are not modelled.  A
  division whose divisor can be zero is embedded as an `Option`-valued
  checked division, `none` marking that the source would perform an
  IEEE division by zero.
-/

namespace RLViser

/-! ## Little-endian integer codec

Modelled from the spec: the byte-level codec lives in the program's
`bytes` module, which is not part of the provided sources; the spec
fixes "flat, order-dependent field walk with fixed little-endian numeric
encodings". -/

/-- Little-endian 4-byte encoding of a 32-bit value. -/
def encU32 (n : Nat) : List Nat :=
  [n % 256, n / 256 % 256, n / 256 ^ 2 % 256, n / 256 ^ 3 % 256]

/-- Consume 4 little-endian bytes as a 32-bit value, returning the tail. -/
def decU32 : List Nat → Option (Nat × List Nat)
  | b0 :: b1 :: b2 :: b3 :: rest =>
      some (b0 + 256 * (b1 + 256 * (b2 + 256 * b3)), rest)
  | _ => none

/-- Little-endian 8-byte encoding of a 64-bit value. -/
def encU64 (n : Nat) : List Nat :=
  [n % 256, n / 256 % 256, n / 256 ^ 2 % 256, n / 256 ^ 3 % 256,
   n / 256 ^ 4 % 256, n / 256 ^ 5 % 256, n / 256 ^ 6 % 256, n / 256 ^ 7 % 256]

/-- Consume 8 little-endian bytes as a 64-bit value, returning the tail. -/
def decU64 : List Nat → Option (Nat × List Nat)
  | b0 :: b1 :: b2 :: b3 :: b4 :: b5 :: b6 :: b7 :: rest =>
      some (b0 + 256 * (b1 + 256 * (b2 + 256 * (b3 + 256 * (b4 + 256 *
        (b5 + 256 * (b6 + 256 * b7)))))), rest)
  | _ => none

/-- One-byte boolean encoding, as in the sender's `paused as u8`. -/
def encBool (b : Bool) : List Nat := [if b then 1 else 0]

/-- One-byte boolean decoding, as in the receiver's `paused_buffer[0] != 0`. -/
def decBool : List Nat → Option (Bool × List Nat)
  | b :: rest => some (b != 0, rest)
  | _ => none

theorem decU32_encU32 {n : Nat} (h : n < 2 ^ 32) (r : List Nat) :
    decU32 (encU32 n ++ r) = some (n, r) := by
  simp only [encU32, decU32, List.cons_append, List.nil_append]
  congr 2
  omega

theorem decU64_encU64 {n : Nat} (h : n < 2 ^ 64) (r : List Nat) :
    decU64 (encU64 n ++ r) = some (n, r) := by
  simp only [encU64, decU64, List.cons_append, List.nil_append]
  congr 2
  omega

theorem decBool_encBool (b : Bool) (r : List Nat) :
    decBool (encBool b ++ r) = some (b, r) := by
  cases b <;> simp [encBool, decBool]

/-! ## Game-state data model

The `GameState` record and its components, following the spec's data
model (§3) and the field accesses visible in `udp.rs`.  Scalar `f32`
fields are raw 32-bit patterns. -/

/-- Car team, `Team { Blue, Orange }`. -/
inductive Team where
  | blue
  | orange
deriving DecidableEq, Repr

/-- Arena layout enumeration; `Soccar` and `Hoops` are matched on in
`udp.rs`, the remaining variants come from the spec's "enum of supported
arena layouts". -/
inductive GameMode where
  | soccar
  | hoops
  | heatseeker
  | snowday
  | thevoid
deriving DecidableEq, Repr

/-- A 3-component vector of raw 32-bit `f32` patterns. -/
structure Vec3W where
  x : Nat
  y : Nat
  z : Nat
deriving DecidableEq, Repr

/-- A 3x3 rotation matrix of raw 32-bit `f32` patterns, stored as three
axis columns like `Mat3A`. -/
structure Mat3W where
  x_axis : Vec3W
  y_axis : Vec3W
  z_axis : Vec3W
deriving DecidableEq, Repr

/-- `BallState { pos, vel, ang_vel, rot_mat }`. -/
structure BallState where
  pos : Vec3W
  vel : Vec3W
  ang_vel : Vec3W
  rot_mat : Mat3W
deriving DecidableEq, Repr

/-- One wheel pair of the car config; fields read in `udp.rs`:
`wheel_radius`, `suspension_rest_length`, `connection_point_offset`. -/
structure WheelPairConfig where
  wheel_radius : Nat
  suspension_rest_length : Nat
  connection_point_offset : Vec3W
deriving DecidableEq, Repr

/-- Static car geometry: `hitbox_size`, `front_wheels`, `back_wheels`. -/
structure CarConfig where
  hitbox_size : Vec3W
  front_wheels : WheelPairConfig
  back_wheels : WheelPairConfig
deriving DecidableEq, Repr

/-- The previously applied controls; `throttle` and `boost` are the
fields `udp.rs` reads from `last_controls`. -/
structure CarControls where
  throttle : Nat
  boost : Bool
deriving DecidableEq, Repr

/-- Four wheel-contact flags, `wheels_with_contact: [bool; 4]`. -/
structure WheelsWithContact where
  w0 : Bool
  w1 : Bool
  w2 : Bool
  w3 : Bool
deriving DecidableEq, Repr

/-- `CarState` as in the spec's data model. -/
structure CarState where
  pos : Vec3W
  vel : Vec3W
  ang_vel : Vec3W
  rot_mat : Mat3W
  boost : Nat
  is_demoed : Bool
  is_on_ground : Bool
  wheels_with_contact : WheelsWithContact
  last_controls : CarControls
deriving DecidableEq, Repr

/-- `CarInfo { id, team, config, state }`. -/
structure CarInfo where
  id : Nat
  team : Team
  config : CarConfig
  state : CarState
deriving DecidableEq, Repr

/-- The mutable part of a boost pad, `state: { is_active }`. -/
structure BoostPadMutableState where
  is_active : Bool
deriving DecidableEq, Repr

/-- `BoostPadState { position, is_big, state }`. -/
structure BoostPadState where
  position : Vec3W
  is_big : Bool
  state : BoostPadMutableState
deriving DecidableEq, Repr

/-- One simulation snapshot, `GameState`. -/
structure GameState where
  tick_count : Nat
  tick_rate : Nat
  game_mode : GameMode
  ball : BallState
  cars : List CarInfo
  pads : List BoostPadState
deriving DecidableEq, Repr

/-- `GameState::default()`: zeroed scalars, identity-free zero matrix,
empty car and pad lists. -/
def GameState.default : GameState :=
  { tick_count := 0
    tick_rate := 0
    game_mode := .soccar
    ball :=
      { pos := ⟨0, 0, 0⟩
        vel := ⟨0, 0, 0⟩
        ang_vel := ⟨0, 0, 0⟩
        rot_mat := ⟨⟨0, 0, 0⟩, ⟨0, 0, 0⟩, ⟨0, 0, 0⟩⟩ }
    cars := []
    pads := [] }

/-! ## Structure codecs

Modelled from the spec: `bytes.rs` (the `FromBytes`/`ToBytes`
implementations) is not among the provided sources, so the field walk
follows the spec's §4.1/§6 description: a flat, order-dependent walk of
the fields in data-model order, little-endian scalars, one byte per
boolean and enum, and `u32`-length-prefixed car/pad lists. -/

/-- Well-formed 32-bit word. -/
def wf32 (n : Nat) : Bool := decide (n < 2 ^ 32)

/-- Vector well-formedness: every component is a 32-bit word. -/
def Vec3W.WF (v : Vec3W) : Bool := wf32 v.x && wf32 v.y && wf32 v.z

def Mat3W.WF (m : Mat3W) : Bool := m.x_axis.WF && m.y_axis.WF && m.z_axis.WF

def encVec3 (v : Vec3W) : List Nat := encU32 v.x ++ encU32 v.y ++ encU32 v.z

def decVec3 (bs : List Nat) : Option (Vec3W × List Nat) :=
  (decU32 bs).bind fun p1 =>
  (decU32 p1.2).bind fun p2 =>
  (decU32 p2.2).bind fun p3 =>
  some (⟨p1.1, p2.1, p3.1⟩, p3.2)

def encMat3 (m : Mat3W) : List Nat :=
  encVec3 m.x_axis ++ encVec3 m.y_axis ++ encVec3 m.z_axis

def decMat3 (bs : List Nat) : Option (Mat3W × List Nat) :=
  (decVec3 bs).bind fun p1 =>
  (decVec3 p1.2).bind fun p2 =>
  (decVec3 p2.2).bind fun p3 =>
  some (⟨p1.1, p2.1, p3.1⟩, p3.2)

def encTeam : Team → List Nat
  | .blue => [0]
  | .orange => [1]

def decTeam : List Nat → Option (Team × List Nat)
  | 0 :: rest => some (.blue, rest)
  | 1 :: rest => some (.orange, rest)
  | _ => none

def encGameMode : GameMode → List Nat
  | .soccar => [0]
  | .hoops => [1]
  | .heatseeker => [2]
  | .snowday => [3]
  | .thevoid => [4]

def decGameMode : List Nat → Option (GameMode × List Nat)
  | 0 :: rest => some (.soccar, rest)
  | 1 :: rest => some (.hoops, rest)
  | 2 :: rest => some (.heatseeker, rest)
  | 3 :: rest => some (.snowday, rest)
  | 4 :: rest => some (.thevoid, rest)
  | _ => none

def BallState.WF (b : BallState) : Bool :=
  b.pos.WF && b.vel.WF && b.ang_vel.WF && b.rot_mat.WF

def encBall (b : BallState) : List Nat :=
  encVec3 b.pos ++ encVec3 b.vel ++ encVec3 b.ang_vel ++ encMat3 b.rot_mat

def decBall (bs : List Nat) : Option (BallState × List Nat) :=
  (decVec3 bs).bind fun p1 =>
  (decVec3 p1.2).bind fun p2 =>
  (decVec3 p2.2).bind fun p3 =>
  (decMat3 p3.2).bind fun p4 =>
  some (⟨p1.1, p2.1, p3.1, p4.1⟩, p4.2)

def WheelPairConfig.WF (w : WheelPairConfig) : Bool :=
  wf32 w.wheel_radius && wf32 w.suspension_rest_length && w.connection_point_offset.WF

def encWheelPair (w : WheelPairConfig) : List Nat :=
  encU32 w.wheel_radius ++ encU32 w.suspension_rest_length ++ encVec3 w.connection_point_offset

def decWheelPair (bs : List Nat) : Option (WheelPairConfig × List Nat) :=
  (decU32 bs).bind fun p1 =>
  (decU32 p1.2).bind fun p2 =>
  (decVec3 p2.2).bind fun p3 =>
  some (⟨p1.1, p2.1, p3.1⟩, p3.2)

def CarConfig.WF (c : CarConfig) : Bool :=
  c.hitbox_size.WF && c.front_wheels.WF && c.back_wheels.WF

def encCarConfig (c : CarConfig) : List Nat :=
  encVec3 c.hitbox_size ++ encWheelPair c.front_wheels ++ encWheelPair c.back_wheels

def decCarConfig (bs : List Nat) : Option (CarConfig × List Nat) :=
  (decVec3 bs).bind fun p1 =>
  (decWheelPair p1.2).bind fun p2 =>
  (decWheelPair p2.2).bind fun p3 =>
  some (⟨p1.1, p2.1, p3.1⟩, p3.2)

def encCarControls (c : CarControls) : List Nat :=
  encU32 c.throttle ++ encBool c.boost

def decCarControls (bs : List Nat) : Option (CarControls × List Nat) :=
  (decU32 bs).bind fun p1 =>
  (decBool p1.2).bind fun p2 =>
  some (⟨p1.1, p2.1⟩, p2.2)

def encWheelsWithContact (w : WheelsWithContact) : List Nat :=
  encBool w.w0 ++ encBool w.w1 ++ encBool w.w2 ++ encBool w.w3

def decWheelsWithContact (bs : List Nat) : Option (WheelsWithContact × List Nat) :=
  (decBool bs).bind fun p1 =>
  (decBool p1.2).bind fun p2 =>
  (decBool p2.2).bind fun p3 =>
  (decBool p3.2).bind fun p4 =>
  some (⟨p1.1, p2.1, p3.1, p4.1⟩, p4.2)

def CarState.WF (s : CarState) : Bool :=
  s.pos.WF && s.vel.WF && s.ang_vel.WF && s.rot_mat.WF && wf32 s.boost &&
    wf32 s.last_controls.throttle

def encCarState (s : CarState) : List Nat :=
  encVec3 s.pos ++ encVec3 s.vel ++ encVec3 s.ang_vel ++ encMat3 s.rot_mat ++
    encU32 s.boost ++ encBool s.is_demoed ++ encBool s.is_on_ground ++
    encWheelsWithContact s.wheels_with_contact ++ encCarControls s.last_controls

def decCarState (bs : List Nat) : Option (CarState × List Nat) :=
  (decVec3 bs).bind fun p1 =>
  (decVec3 p1.2).bind fun p2 =>
  (decVec3 p2.2).bind fun p3 =>
  (decMat3 p3.2).bind fun p4 =>
  (decU32 p4.2).bind fun p5 =>
  (decBool p5.2).bind fun p6 =>
  (decBool p6.2).bind fun p7 =>
  (decWheelsWithContact p7.2).bind fun p8 =>
  (decCarControls p8.2).bind fun p9 =>
  some (⟨p1.1, p2.1, p3.1, p4.1, p5.1, p6.1, p7.1, p8.1, p9.1⟩, p9.2)

def CarInfo.WF (c : CarInfo) : Bool :=
  wf32 c.id && c.config.WF && c.state.WF

def encCarInfo (c : CarInfo) : List Nat :=
  encU32 c.id ++ encTeam c.team ++ encCarConfig c.config ++ encCarState c.state

def decCarInfo (bs : List Nat) : Option (CarInfo × List Nat) :=
  (decU32 bs).bind fun p1 =>
  (decTeam p1.2).bind fun p2 =>
  (decCarConfig p2.2).bind fun p3 =>
  (decCarState p3.2).bind fun p4 =>
  some (⟨p1.1, p2.1, p3.1, p4.1⟩, p4.2)

def BoostPadState.WF (p : BoostPadState) : Bool := p.position.WF

def encBoostPad (p : BoostPadState) : List Nat :=
  encVec3 p.position ++ encBool p.is_big ++ encBool p.state.is_active

def decBoostPad (bs : List Nat) : Option (BoostPadState × List Nat) :=
  (decVec3 bs).bind fun p1 =>
  (decBool p1.2).bind fun p2 =>
  (decBool p2.2).bind fun p3 =>
  some (⟨p1.1, p2.1, ⟨p3.1⟩⟩, p3.2)

/-- Concatenation of the encodings of the elements of a list. -/
def concatMap (enc : α → List Nat) : List α → List Nat
  | [] => []
  | x :: xs => enc x ++ concatMap enc xs

/-- A `u32` element count followed by the element encodings. -/
def encListWith (enc : α → List Nat) (xs : List α) : List Nat :=
  encU32 xs.length ++ concatMap enc xs

/-- Decode exactly `n` elements with the given element decoder. -/
def decCount (dec : List Nat → Option (α × List Nat)) :
    Nat → List Nat → Option (List α × List Nat)
  | 0, bs => some ([], bs)
  | n + 1, bs =>
      (dec bs).bind fun p =>
      (decCount dec n p.2).bind fun q =>
      some (p.1 :: q.1, q.2)

/-- Decode a `u32` element count, then that many elements. -/
def decListWith (dec : List Nat → Option (α × List Nat)) (bs : List Nat) :
    Option (List α × List Nat) :=
  (decU32 bs).bind fun p => decCount dec p.1 p.2

/-- Well-formed snapshot: every numeric field fits its wire width and
the car/pad counts fit their `u32` length prefixes. -/
def GameState.WF (g : GameState) : Bool :=
  decide (g.tick_count < 2 ^ 64) && wf32 g.tick_rate && g.ball.WF &&
    decide (g.cars.length < 2 ^ 32) && g.cars.all CarInfo.WF &&
    decide (g.pads.length < 2 ^ 32) && g.pads.all BoostPadState.WF

/-- `GameState` payload encoding: tick_count, tick_rate, game_mode,
ball, car list, pad list (spec §6). -/
def encodeGameState (g : GameState) : List Nat :=
  encU64 g.tick_count ++ encU32 g.tick_rate ++ encGameMode g.game_mode ++
    encBall g.ball ++ encListWith encCarInfo g.cars ++ encListWith encBoostPad g.pads

def decGameState (bs : List Nat) : Option (GameState × List Nat) :=
  (decU64 bs).bind fun p1 =>
  (decU32 p1.2).bind fun p2 =>
  (decGameMode p2.2).bind fun p3 =>
  (decBall p3.2).bind fun p4 =>
  (decListWith decCarInfo p4.2).bind fun p5 =>
  (decListWith decBoostPad p5.2).bind fun p6 =>
  some (⟨p1.1, p2.1, p3.1, p4.1, p5.1, p6.1⟩, p6.2)

/-- Top-level `GameState::from_bytes`: the whole buffer is one snapshot. -/
def decodeGameState (bs : List Nat) : Option GameState :=
  match decGameState bs with
  | some (g, []) => some g
  | _ => none

/-- The scalar speed value: 4 little-endian bytes of the `f32` bit
pattern, as in `f32::from_le_bytes(speed_buffer)`. -/
def encodeSpeed (bits : Nat) : List Nat := encU32 bits

def decodeSpeed (bs : List Nat) : Option Nat :=
  match decU32 bs with
  | some (n, []) => some n
  | _ => none

/-- The paused flag: one byte, `paused as u8` / `paused_buffer[0] != 0`. -/
def encodePaused (b : Bool) : List Nat := encBool b

def decodePaused (bs : List Nat) : Option Bool :=
  match decBool bs with
  | some (b, []) => some b
  | _ => none

/-- Modelled from the spec: one debug-draw primitive of a render
overlay.  The spec fixes no field layout for primitives, so a primitive
is modelled as a kind byte, two 3-vectors and a color word. -/
structure RenderPrim where
  kind : Nat
  a : Vec3W
  b : Vec3W
  color : Nat
deriving DecidableEq, Repr

def RenderPrim.WF (p : RenderPrim) : Bool :=
  decide (p.kind < 256) && p.a.WF && p.b.WF && wf32 p.color

def encRenderPrim (p : RenderPrim) : List Nat :=
  [p.kind] ++ encVec3 p.a ++ encVec3 p.b ++ encU32 p.color

def decRenderPrim : List Nat → Option (RenderPrim × List Nat)
  | k :: bs =>
      (decVec3 bs).bind fun p1 =>
      (decVec3 p1.2).bind fun p2 =>
      (decU32 p2.2).bind fun p3 =>
      some (⟨k, p1.1, p2.1, p3.1⟩, p3.2)
  | [] => none

/-- A render-overlay message: `AddRender(group_id, renders)` or
`RemoveRender(group_id)` (spec §6: add-group or remove-group). -/
inductive RenderMessage where
  | addRender (group_id : Nat) (renders : List RenderPrim)
  | removeRender (group_id : Nat)
deriving DecidableEq, Repr

def RenderMessage.WF : RenderMessage → Bool
  | .addRender gid rs =>
      wf32 gid && decide (rs.length < 2 ^ 32) && rs.all RenderPrim.WF
  | .removeRender gid => wf32 gid

/-- Modelled from the spec: a variant byte, the `u32` group id, and for
add-group the primitive list. -/
def encodeRenderMessage : RenderMessage → List Nat
  | .addRender gid rs => 0 :: (encU32 gid ++ encListWith encRenderPrim rs)
  | .removeRender gid => 1 :: encU32 gid

def decodeRenderMessage : List Nat → Option RenderMessage
  | 0 :: bs =>
      match (decU32 bs).bind fun p => decListWith decRenderPrim p.2 |>.map fun q => ((p.1, q.1), q.2) with
      | some ((gid, rs), []) => some (.addRender gid rs)
      | _ => none
  | 1 :: bs =>
      match decU32 bs with
      | some (gid, []) => some (.removeRender gid)
      | _ => none
  | _ => none

/-! ## Codec round-trip lemmas -/

theorem decVec3_encVec3 {v : Vec3W} (h : v.WF = true) (r : List Nat) :
    decVec3 (encVec3 v ++ r) = some (v, r) := by
  simp only [Vec3W.WF, wf32, Bool.and_eq_true, decide_eq_true_eq] at h
  obtain ⟨⟨hx, hy⟩, hz⟩ := h
  simp [encVec3, decVec3, List.append_assoc, decU32_encU32 hx, decU32_encU32 hy,
    decU32_encU32 hz]

theorem decMat3_encMat3 {m : Mat3W} (h : m.WF = true) (r : List Nat) :
    decMat3 (encMat3 m ++ r) = some (m, r) := by
  simp only [Mat3W.WF, Bool.and_eq_true] at h
  obtain ⟨⟨hx, hy⟩, hz⟩ := h
  simp [encMat3, decMat3, List.append_assoc, decVec3_encVec3 hx, decVec3_encVec3 hy,
    decVec3_encVec3 hz]

theorem decTeam_encTeam (t : Team) (r : List Nat) :
    decTeam (encTeam t ++ r) = some (t, r) := by
  cases t <;> simp [encTeam, decTeam]

theorem decGameMode_encGameMode (m : GameMode) (r : List Nat) :
    decGameMode (encGameMode m ++ r) = some (m, r) := by
  cases m <;> simp [encGameMode, decGameMode]

theorem decBall_encBall {b : BallState} (h : b.WF = true) (r : List Nat) :
    decBall (encBall b ++ r) = some (b, r) := by
  simp only [BallState.WF, Bool.and_eq_true] at h
  obtain ⟨⟨⟨h1, h2⟩, h3⟩, h4⟩ := h
  simp [encBall, decBall, List.append_assoc, decVec3_encVec3 h1, decVec3_encVec3 h2,
    decVec3_encVec3 h3, decMat3_encMat3 h4]

theorem decWheelPair_encWheelPair {w : WheelPairConfig} (h : w.WF = true) (r : List Nat) :
    decWheelPair (encWheelPair w ++ r) = some (w, r) := by
  simp only [WheelPairConfig.WF, wf32, Bool.and_eq_true, decide_eq_true_eq] at h
  obtain ⟨⟨h1, h2⟩, h3⟩ := h
  simp [encWheelPair, decWheelPair, List.append_assoc, decU32_encU32 h1,
    decU32_encU32 h2, decVec3_encVec3 h3]

theorem decCarConfig_encCarConfig {c : CarConfig} (h : c.WF = true) (r : List Nat) :
    decCarConfig (encCarConfig c ++ r) = some (c, r) := by
  simp only [CarConfig.WF, Bool.and_eq_true] at h
  obtain ⟨⟨h1, h2⟩, h3⟩ := h
  simp [encCarConfig, decCarConfig, List.append_assoc, decVec3_encVec3 h1,
    decWheelPair_encWheelPair h2, decWheelPair_encWheelPair h3]

theorem decCarControls_encCarControls {c : CarControls}
    (h : c.throttle < 2 ^ 32) (r : List Nat) :
    decCarControls (encCarControls c ++ r) = some (c, r) := by
  simp [encCarControls, decCarControls, List.append_assoc, decU32_encU32 h,
    decBool_encBool]

theorem decWheels_encWheels (w : WheelsWithContact) (r : List Nat) :
    decWheelsWithContact (encWheelsWithContact w ++ r) = some (w, r) := by
  simp [encWheelsWithContact, decWheelsWithContact, List.append_assoc, decBool_encBool]

theorem decCarState_encCarState {s : CarState} (h : s.WF = true) (r : List Nat) :
    decCarState (encCarState s ++ r) = some (s, r) := by
  simp only [CarState.WF, wf32, Bool.and_eq_true, decide_eq_true_eq] at h
  obtain ⟨⟨⟨⟨⟨h1, h2⟩, h3⟩, h4⟩, h5⟩, h6⟩ := h
  simp [encCarState, decCarState, List.append_assoc, decVec3_encVec3 h1,
    decVec3_encVec3 h2, decVec3_encVec3 h3, decMat3_encMat3 h4, decU32_encU32 h5,
    decBool_encBool, decWheels_encWheels, decCarControls_encCarControls h6]

theorem decCarInfo_encCarInfo {c : CarInfo} (h : c.WF = true) (r : List Nat) :
    decCarInfo (encCarInfo c ++ r) = some (c, r) := by
  simp only [CarInfo.WF, wf32, Bool.and_eq_true, decide_eq_true_eq] at h
  obtain ⟨⟨h1, h2⟩, h3⟩ := h
  simp [encCarInfo, decCarInfo, List.append_assoc, decU32_encU32 h1,
    decTeam_encTeam, decCarConfig_encCarConfig h2, decCarState_encCarState h3]

theorem decBoostPad_encBoostPad {p : BoostPadState} (h : p.WF = true) (r : List Nat) :
    decBoostPad (encBoostPad p ++ r) = some (p, r) := by
  simp only [BoostPadState.WF] at h
  simp [encBoostPad, decBoostPad, List.append_assoc, decVec3_encVec3 h, decBool_encBool]

theorem decCount_concatMap {dec : List Nat → Option (α × List Nat)}
    {enc : α → List Nat} {P : α → Bool}
    (hde : ∀ x : α, ∀ r : List Nat, P x = true → dec (enc x ++ r) = some (x, r)) :
    ∀ (xs : List α) (r : List Nat), (∀ x ∈ xs, P x = true) →
      decCount dec xs.length (concatMap enc xs ++ r) = some (xs, r) := by
  intro xs
  induction xs with
  | nil => intro r _; simp [concatMap, decCount]
  | cons x xs ih =>
      intro r hwf
      have hx := hwf x (List.mem_cons_self x xs)
      have hxs : ∀ y ∈ xs, P y = true := fun y hy => hwf y (List.mem_cons_of_mem x hy)
      simp [concatMap, decCount, List.append_assoc, hde x _ hx, ih _ hxs]

theorem decListWith_encListWith {dec : List Nat → Option (α × List Nat)}
    {enc : α → List Nat} {P : α → Bool}
    (hde : ∀ x : α, ∀ r : List Nat, P x = true → dec (enc x ++ r) = some (x, r))
    {xs : List α} (hlen : xs.length < 2 ^ 32) (hwf : ∀ x ∈ xs, P x = true)
    (r : List Nat) :
    decListWith dec (encListWith enc xs ++ r) = some (xs, r) := by
  simp [encListWith, decListWith, List.append_assoc, decU32_encU32 hlen,
    decCount_concatMap hde xs r hwf]

theorem decGameState_encodeGameState {g : GameState} (h : g.WF = true) (r : List Nat) :
    decGameState (encodeGameState g ++ r) = some (g, r) := by
  simp only [GameState.WF, wf32, Bool.and_eq_true, decide_eq_true_eq,
    List.all_eq_true] at h
  obtain ⟨⟨⟨⟨⟨⟨h1, h2⟩, h3⟩, h4⟩, h5⟩, h6⟩, h7⟩ := h
  simp [encodeGameState, decGameState, List.append_assoc, decU64_encU64 h1,
    decU32_encU32 h2, decGameMode_encGameMode, decBall_encBall h3,
    decListWith_encListWith (fun x r hx => decCarInfo_encCarInfo hx r) h4 h5,
    decListWith_encListWith (fun x r hx => decBoostPad_encBoostPad hx r) h6 h7]

theorem decodeGameState_encodeGameState {g : GameState} (h : g.WF = true) :
    decodeGameState (encodeGameState g) = some g := by
  have := decGameState_encodeGameState h []
  simp only [List.append_nil] at this
  simp [decodeGameState, this]

theorem decodeSpeed_encodeSpeed {bits : Nat} (h : bits < 2 ^ 32) :
    decodeSpeed (encodeSpeed bits) = some bits := by
  have := decU32_encU32 h []
  simp only [List.append_nil] at this
  simp [decodeSpeed, encodeSpeed, this]

theorem decodePaused_encodePaused (b : Bool) :
    decodePaused (encodePaused b) = some b := by
  have := decBool_encBool b []
  simp only [List.append_nil] at this
  simp [decodePaused, encodePaused, this]

theorem decRenderPrim_encRenderPrim {p : RenderPrim} (h : p.WF = true) (r : List Nat) :
    decRenderPrim (encRenderPrim p ++ r) = some (p, r) := by
  simp only [RenderPrim.WF, wf32, Bool.and_eq_true, decide_eq_true_eq] at h
  obtain ⟨⟨⟨_, h2⟩, h3⟩, h4⟩ := h
  simp [encRenderPrim, decRenderPrim, List.append_assoc, decVec3_encVec3 h2,
    decVec3_encVec3 h3, decU32_encU32 h4]

theorem decodeRenderMessage_encodeRenderMessage {m : RenderMessage} (h : m.WF = true) :
    decodeRenderMessage (encodeRenderMessage m) = some m := by
  cases m with
  | addRender gid rs =>
      simp only [RenderMessage.WF, wf32, Bool.and_eq_true, decide_eq_true_eq,
        List.all_eq_true] at h
      obtain ⟨⟨h1, h2⟩, h3⟩ := h
      have hlist := decListWith_encListWith
        (fun x r hx => decRenderPrim_encRenderPrim hx r) h2 h3 []
      simp only [List.append_nil] at hlist
      have hgid := decU32_encU32 h1 (encListWith encRenderPrim rs)
      simp [encodeRenderMessage, decodeRenderMessage, hgid, hlist]
  | removeRender gid =>
      simp only [RenderMessage.WF, wf32, decide_eq_true_eq] at h
      have := decU32_encU32 h []
      simp only [List.append_nil] at this
      simp [encodeRenderMessage, decodeRenderMessage, this]

/-! ## Receiver loop (`start_udp_recv_handler`)

The receiver thread's loop, embedded over typed datagrams (byte framing
and peeking abstracted away; `GameState::read_tick_count` of the peeked
header projects the snapshot's `tick_count`).  Control flow follows
`udp.rs`: `Quit` emits `Exit` and returns; a `GameState` whose
`tick_count` is greater than 1 and less than the last accepted one is
drained and the thread `return`s (emitting nothing); an accepted
`GameState` replaces `last_game_state` and is emitted; the other packet
kinds are decoded and emitted.  The result is the list of events pushed
onto the inbound channel while consuming the given arrival sequence. -/

/-- One inbound datagram after discriminant dispatch (`UdpPacketTypes`
plus its payload). -/
inductive UdpPacket where
  | quit
  | gameState (g : GameState)
  | connection
  | paused (b : Bool)
  | speed (bits : Nat)
  | render (m : RenderMessage)
deriving DecidableEq, Repr

/-- A typed event pushed onto the inbound channel (`UdpUpdate`). -/
inductive UdpUpdate where
  | state (g : GameState)
  | render (m : RenderMessage)
  | speed (bits : Nat)
  | paused (b : Bool)
  | connection
  | exit
deriving DecidableEq, Repr

/-- The receiver loop body of `start_udp_recv_handler`, folded over an
arrival sequence. -/
def recv_loop (last_game_state : GameState) : List UdpPacket → List UdpUpdate
  | [] => []
  | .quit :: _ => [.exit]
  | .gameState g :: rest =>
      if g.tick_count > 1 ∧ last_game_state.tick_count > g.tick_count then
        []
      else
        .state g :: recv_loop g rest
  | .connection :: rest => .connection :: recv_loop last_game_state rest
  | .paused b :: rest => .paused b :: recv_loop last_game_state rest
  | .speed n :: rest => .speed n :: recv_loop last_game_state rest
  | .render m :: rest => .render m :: recv_loop last_game_state rest

/-! ## Triple-buffered state (`GameStates`) -/

/-- The three buffered generations `last`/`current`/`next`. -/
structure GameStates where
  last : GameState
  current : GameState
  next : GameState
deriving DecidableEq, Repr

/-- The runtime-selected smoothing policy. -/
inductive PacketSmoothing where
  | none
  | extrapolate
  | interpolate
deriving DecidableEq, Repr

/-- `GameStates::advance`, mirroring the mutation sequence of `udp.rs`:
for `None`/`Extrapolate`, `self.last = replace(&mut self.next,
new_state)`, the optional ball-rotation carry from `current`, then
`self.current = self.next.clone()`; for `Interpolate`, `swap(&mut
self.last, &mut self.next)`, `self.current = self.last.clone()`,
`self.next = new_state`. -/
def GameStates.advance (s : GameStates) (packet_smoothing : PacketSmoothing)
    (new_state : GameState) (calc_ball_rot : Bool) : GameStates :=
  match packet_smoothing with
  | .none | .extrapolate =>
      let s1 : GameStates := { s with last := s.next, next := new_state }
      let s2 : GameStates :=
        if calc_ball_rot then
          { s1 with next :=
            { s1.next with ball := { s1.next.ball with rot_mat := s1.current.ball.rot_mat } } }
        else s1
      { s2 with current := s2.next }
  | .interpolate =>
      let s1 : GameStates := { s with last := s.next, next := s.last }
      let s2 : GameStates := { s1 with current := s1.last }
      { s2 with next := new_state }

/-- `GameStates::iter_current_cars`: `izip!` of the three car lists,
which pairs positionally and truncates to the shortest list. -/
def GameStates.iter_current_cars (s : GameStates) : List (CarInfo × CarInfo × CarInfo) :=
  s.last.cars.zip (s.current.cars.zip s.next.cars)

/-! ## Per-frame smoothing arithmetic over `ℚ`

The scalar computations of `update_ball_rotation`,
`interpolate_calc_next_ball_rot` and `interpolate_packets`, embedded
over `ℚ`.  `checkedDiv` returns `none` exactly when the source would
perform an IEEE division by zero. -/

/-- Division that marks a zero divisor instead of performing the IEEE
division by zero the source would perform. -/
def checkedDiv (a b : ℚ) : Option ℚ := if b = 0 then none else some (a / b)

/-- A 3-component rational vector. -/
structure Vec3Q where
  x : ℚ
  y : ℚ
  z : ℚ
deriving DecidableEq, Repr

/-- Scalar linear interpolation as in `glam`: `self + (rhs - self) * s`. -/
def lerpQ (a b t : ℚ) : ℚ := a + (b - a) * t

/-- Componentwise `Vec3A::lerp`. -/
def Vec3Q.lerp (a b : Vec3Q) (t : ℚ) : Vec3Q :=
  ⟨lerpQ a.x b.x t, lerpQ a.y b.y t, lerpQ a.z b.z t⟩

/-- `interpolate_packets`: `total_time_delta = (next.tick_count -
last.tick_count) as f32 / next.tick_rate` (the subtraction is on `u64`,
hence truncated). -/
def total_time_delta (last_tick next_tick : Nat) (next_tick_rate : ℚ) : Option ℚ :=
  checkedDiv ((next_tick - last_tick : ℕ) : ℚ) next_tick_rate

/-- `interpolate_packets`: `lerp_amount = delta_time / total_time_delta`
with `delta_time = packet_time_elapsed.elapsed_secs() * game_speed.speed`. -/
def lerp_amount (last_tick next_tick : Nat) (next_tick_rate elapsed speed : ℚ) :
    Option ℚ :=
  (total_time_delta last_tick next_tick next_tick_rate).bind fun total =>
    checkedDiv (elapsed * speed) total

/-- `interpolate_packets`: `states.current.ball.pos =
states.last.ball.pos.lerp(states.next.ball.pos, lerp_amount)`. -/
def interpolate_ball_pos (last_pos next_pos : Vec3Q) (t : ℚ) : Vec3Q :=
  last_pos.lerp next_pos t

/-- `update_ball_rotation` under `PacketSmoothing::None`: `delta_time =
(states.current.tick_count - *last_game_tick) as f32 /
states.current.tick_rate`. -/
def update_ball_rotation_delta_time (tick_count last_game_tick : Nat)
    (tick_rate : ℚ) : Option ℚ :=
  checkedDiv ((tick_count - last_game_tick : ℕ) : ℚ) tick_rate

/-- `interpolate_calc_next_ball_rot`: `delta_time = (states.next.tick_count
- states.last.tick_count) as f32 / states.next.tick_rate`. -/
def interpolate_calc_next_ball_rot_delta_time (last_tick next_tick : Nat)
    (next_tick_rate : ℚ) : Option ℚ :=
  checkedDiv ((next_tick - last_tick : ℕ) : ℚ) next_tick_rate

/-! ## Angular-velocity rotation integration over `ℝ`

The rotation updates of `update_ball_rotation` and
`extrapolate_packet`, which take a vector norm and build an axis-angle
rotation; embedded over `ℝ` (IEEE rounding and NaNs are not
modelled). -/

/-- A 3-component real vector. -/
structure Vec3R where
  x : ℝ
  y : ℝ
  z : ℝ

/-- Componentwise scalar multiple (`Vec3A * f32` and `Vec3A / f32` via
the inverse scalar). -/
def Vec3R.scale (v : Vec3R) (c : ℝ) : Vec3R := ⟨v.x * c, v.y * c, v.z * c⟩

/-- Componentwise sum. -/
def Vec3R.add (a b : Vec3R) : Vec3R := ⟨a.x + b.x, a.y + b.y, a.z + b.z⟩

/-- `Vec3A::length`: the Euclidean norm. -/
noncomputable def Vec3R.length (v : Vec3R) : ℝ :=
  Real.sqrt (v.x * v.x + v.y * v.y + v.z * v.z)

/-- A 3x3 real matrix stored as three columns like `Mat3A`. -/
structure Mat3R where
  x_axis : Vec3R
  y_axis : Vec3R
  z_axis : Vec3R

/-- `Mat3A::mul_vec3`. -/
def Mat3R.mulVec (m : Mat3R) (v : Vec3R) : Vec3R :=
  ((m.x_axis.scale v.x).add (m.y_axis.scale v.y)).add (m.z_axis.scale v.z)

/-- `Mat3A` matrix product. -/
def Mat3R.mul (m n : Mat3R) : Mat3R :=
  ⟨m.mulVec n.x_axis, m.mulVec n.y_axis, m.mulVec n.z_axis⟩

/-- `f32::EPSILON = 2 ^ (-23)`. -/
noncomputable def EPSILON : ℝ := (8388608 : ℝ)⁻¹

/-- `Mat3A::from_axis_angle` for a unit axis, following `glam`'s
formula. -/
noncomputable def mat3_from_axis_angle (a : Vec3R) (angle : ℝ) : Mat3R :=
  let s := Real.sin angle
  let c := Real.cos angle
  let omc := 1 - c
  ⟨⟨a.x * a.x * omc + c, a.x * a.y * omc + a.z * s, a.x * a.z * omc - a.y * s⟩,
   ⟨a.x * a.y * omc - a.z * s, a.y * a.y * omc + c, a.y * a.z * omc + a.x * s⟩,
   ⟨a.x * a.z * omc + a.y * s, a.y * a.z * omc - a.x * s, a.z * a.z * omc + c⟩⟩

open scoped Classical in
/-- The rotation update of `update_ball_rotation`: scale the angular
velocity by the frame's `delta_time`, and only when the magnitude
exceeds `f32::EPSILON` normalize the axis and pre-multiply the
axis-angle rotation onto the current rotation matrix. -/
noncomputable def update_ball_rotation_rot (ang_vel : Vec3R) (delta_time : ℝ)
    (rot_mat : Mat3R) : Mat3R :=
  let ball_ang_vel := ang_vel.scale delta_time
  let av := ball_ang_vel.length
  if av > EPSILON then
    (mat3_from_axis_angle (ball_ang_vel.scale av⁻¹) av).mul rot_mat
  else rot_mat

open scoped Classical in
/-- The per-car rotation update of `extrapolate_packet`, same guard and
formula applied to `car.state.ang_vel` and `car.state.rot_mat`. -/
noncomputable def extrapolate_car_rot (ang_vel : Vec3R) (delta_time : ℝ)
    (rot_mat : Mat3R) : Mat3R :=
  let car_ang_vel := ang_vel.scale delta_time
  let av := car_ang_vel.length
  if av > EPSILON then
    (mat3_from_axis_angle (car_ang_vel.scale av⁻¹) av).mul rot_mat
  else rot_mat

/-! ## Camera target selection (`update_camera`)

The car-id resolution and lookup of one `update_camera` frame.  The
Bevy queries are abstracted: `scene_car_ids` are the ids of the `Car`
entities in the scene (the `cars` query), `cars` the id/position pairs
of `states.current.cars`; positions are embedded over `ℚ`. -/

/-- A car of the current snapshot as the camera reads it. -/
structure CamCar where
  id : Nat
  pos : Vec3Q
deriving DecidableEq, Repr

/-- `Vec3A::distance_squared`. -/
def distance_squared (a b : Vec3Q) : ℚ :=
  (a.x - b.x) ^ 2 + (a.y - b.y) ^ 2 + (a.z - b.z) ^ 2

/-- The `PrimaryCamera` states used by `update_camera`. -/
inductive PrimaryCamera where
  | spectator
  | trackCar (id : Nat)
  | director (id : Nat)
deriving DecidableEq, Repr

/-- Director re-election: fold over `current.cars` keeping the id of
minimum squared distance to the ball.  The source initializes
`min_dist` to `f32::MAX`; that sentinel is modelled as `none` (any
actual distance compares below it). -/
def director_elect (id : Nat) (cars : List CamCar) (ball_pos : Vec3Q) : Nat :=
  (cars.foldl
    (fun acc car =>
      let dist := distance_squared car.pos ball_pos
      match acc.2 with
      | Option.none => (car.id, some dist)
      | some min_dist => if dist < min_dist then (car.id, some dist) else acc)
    (id, (Option.none : Option ℚ))).1

/-- Outcome of one camera frame: a graceful early return, a panic of
the `.unwrap()` on the scene-car query, or a camera update targeting a
car. -/
inductive CameraFrameResult where
  | skipped
  | panicked
  | updated (car_id : Nat)
deriving DecidableEq, Repr

/-- The two car lookups of `update_camera`, in source order: first
`cars.iter_mut().find(|(_, car)| car.id() == car_id).unwrap()` on the
scene query (a missing entity panics), then the `let Some(target_car) =
states.current.cars.iter().find(...) else return` (a missing snapshot
car skips the frame). -/
def camera_car_lookup (car_id : Nat) (scene_car_ids : List Nat)
    (cars : List CamCar) : CameraFrameResult :=
  if scene_car_ids.contains car_id then
    if (cars.find? fun c => c.id == car_id).isSome then .updated car_id
    else .skipped
  else .panicked

/-- One `update_camera` frame: resolve the target car id per mode
(re-electing for `Director` when `id == 0` or the 12-second timer
finished), then perform the lookups.  Returns the frame outcome and the
possibly updated camera state. -/
def update_camera_step (cam : PrimaryCamera) (timer_finished : Bool)
    (scene_car_ids : List Nat) (cars : List CamCar) (ball_pos : Vec3Q) :
    CameraFrameResult × PrimaryCamera :=
  match cam with
  | .spectator => (.skipped, .spectator)
  | .trackCar id => (camera_car_lookup id scene_car_ids cars, .trackCar id)
  | .director id =>
      let new_id := if id = 0 || timer_finished then director_elect id cars ball_pos else id
      (camera_car_lookup new_id scene_car_ids cars, .director new_id)

/-! ## CLI port parsing (`main.rs`) -/

/-- Decimal digit accumulation. -/
def digitsToNat (acc : Nat) : List Char → Nat
  | [] => acc
  | c :: cs => digitsToNat (acc * 10 + (c.toNat - 48)) cs

/-- `s.parse::<u16>().ok()`: a nonempty digits-only string whose value
is below `2 ^ 16`.  (The Rust parser additionally accepts a leading
`+`, which no port argument needs.) -/
def parse_u16 (s : String) : Option Nat :=
  if s.data = [] then none
  else if s.data.all Char.isDigit then
    if digitsToNat 0 s.data < 65536 then some (digitsToNat 0 s.data) else none
  else none

/-- The port extraction of `main`: `args` is the argument list after
the program name, so `std::env::args().nth(1)` is `args.get? 0`.  The
source reads `nth(1)` for BOTH ports. -/
def main_ports (args : List String) : Nat × Nat :=
  let primary_port := ((args.get? 0).bind parse_u16).getD 34254
  let secondary_port := ((args.get? 0).bind parse_u16).getD 45243
  (primary_port, secondary_port)

/-! ## Claim theorems -/

/-- A snapshot differing from the default only in its tick counter. -/
def mkTickState (t : Nat) : GameState := { GameState.default with tick_count := t }

/-- C1 counterexample: with last accepted tick 100 (which is greater
than 1), an incoming snapshot with the equal tick count 100 is NOT
discarded — the receiver decodes and emits it, contradicting the claim
that every snapshot with `tick_count` ≤ last accepted is discarded with
no event. -/
theorem stale_tick_claim_counterexample :
    recv_loop (mkTickState 100) [.gameState (mkTickState 100)] =
      [.state (mkTickState 100)] ∧
    ([UdpUpdate.state (mkTickState 100)] : List UdpUpdate) ≠ [] := by
  constructor
  · decide
  · decide

/-- C1 (amended): the receiver discards an incoming `GameState`
datagram, emitting no event at all, exactly when its header tick count
is greater than 1 AND strictly less than the last accepted tick count;
otherwise (equal tick counts included, and any tick count ≤ 1 as the
bootstrap case) the snapshot is decoded, emitted, and becomes the new
last accepted state. -/
theorem stale_tick_rejection_amended (last g : GameState) (rest : List UdpPacket) :
    (g.tick_count > 1 → last.tick_count > g.tick_count →
      recv_loop last (.gameState g :: rest) = []) ∧
    (¬(g.tick_count > 1 ∧ last.tick_count > g.tick_count) →
      recv_loop last (.gameState g :: rest) = .state g :: recv_loop g rest) := by
  constructor
  · intro h1 h2
    simp only [recv_loop]
    rw [if_pos ⟨h1, h2⟩]
  · intro h
    simp only [recv_loop]
    rw [if_neg h]

/-- C1 witness: the amended discard rule at last accepted tick 100 and
incoming tick 50, and the accept rule at equal tick 100. -/
theorem stale_tick_rejection_amended_witness :
    ((mkTickState 50).tick_count > 1 ∧
      (mkTickState 100).tick_count > (mkTickState 50).tick_count ∧
      recv_loop (mkTickState 100) [.gameState (mkTickState 50)] = []) ∧
    (¬((mkTickState 100).tick_count > 1 ∧
        (mkTickState 100).tick_count > (mkTickState 100).tick_count) ∧
      recv_loop (mkTickState 100) [.gameState (mkTickState 100)] =
        [.state (mkTickState 100)]) :=
  ⟨⟨by decide, by decide,
      (stale_tick_rejection_amended (mkTickState 100) (mkTickState 50) []).1
        (by decide) (by decide)⟩,
   ⟨by decide,
      (stale_tick_rejection_amended (mkTickState 100) (mkTickState 100) []).2
        (by decide)⟩⟩

/-- C2: evaluating the receiver loop shows the divergence from the
claim.  First, an exact duplicate (tick 100 after accepted tick 100) is
not discarded: it is decoded and re-emitted.  Second, a genuinely stale
snapshot (tick 50 after accepted tick 100) is drained and then the
receiver `return`s — the loop does NOT continue, so the following tick
101 snapshot is never decoded or emitted. -/
theorem stale_discard_terminates_receiver :
    recv_loop GameState.default
        [.gameState (mkTickState 100), .gameState (mkTickState 100),
         .gameState (mkTickState 101)] =
      [.state (mkTickState 100), .state (mkTickState 100),
       .state (mkTickState 101)] ∧
    recv_loop GameState.default
        [.gameState (mkTickState 100), .gameState (mkTickState 50),
         .gameState (mkTickState 101)] =
      [.state (mkTickState 100)] := by
  constructor
  · decide
  · decide

/-- C3: postconditions of `GameStates::advance`.  Under `None` or
`Extrapolate`: `last` becomes the old `next`, the new snapshot is
installed as `next` (with its ball rotation matrix overwritten by the
old `current`'s when `calc_ball_rot` is enabled), and `current` equals
`next`.  Under `Interpolate`: `last` becomes the old `next`, `current`
equals the old `next` (not the new snapshot), and the new snapshot is
installed as `next`. -/
theorem advance_postconditions (s : GameStates) (new_state : GameState) (cbr : Bool) :
    ((s.advance .none new_state cbr).last = s.next ∧
     (s.advance .none new_state cbr).next =
       (if cbr then
          { new_state with ball :=
            { new_state.ball with rot_mat := s.current.ball.rot_mat } }
        else new_state) ∧
     (s.advance .none new_state cbr).current = (s.advance .none new_state cbr).next) ∧
    ((s.advance .extrapolate new_state cbr).last = s.next ∧
     (s.advance .extrapolate new_state cbr).next =
       (if cbr then
          { new_state with ball :=
            { new_state.ball with rot_mat := s.current.ball.rot_mat } }
        else new_state) ∧
     (s.advance .extrapolate new_state cbr).current =
       (s.advance .extrapolate new_state cbr).next) ∧
    ((s.advance .interpolate new_state cbr).last = s.next ∧
     (s.advance .interpolate new_state cbr).current = s.next ∧
     (s.advance .interpolate new_state cbr).next = new_state) := by
  cases cbr <;> simp [GameStates.advance]

/-- A car whose non-id fields are all zeroed. -/
def mkCar (id : Nat) : CarInfo :=
  { id := id
    team := .blue
    config :=
      { hitbox_size := ⟨0, 0, 0⟩
        front_wheels := ⟨0, 0, ⟨0, 0, 0⟩⟩
        back_wheels := ⟨0, 0, ⟨0, 0, 0⟩⟩ }
    state :=
      { pos := ⟨0, 0, 0⟩
        vel := ⟨0, 0, 0⟩
        ang_vel := ⟨0, 0, 0⟩
        rot_mat := ⟨⟨0, 0, 0⟩, ⟨0, 0, 0⟩, ⟨0, 0, 0⟩⟩
        boost := 0
        is_demoed := false
        is_on_ground := false
        wheels_with_contact := ⟨false, false, false, false⟩
        last_controls := ⟨0, false⟩ } }

/-- A buffer whose `last`/`current` hold the car with id 1 and whose
`next` holds the car with id 2. -/
def pairingStates : GameStates :=
  { last := { GameState.default with cars := [mkCar 1] }
    current := { GameState.default with cars := [mkCar 1] }
    next := { GameState.default with cars := [mkCar 2] } }

/-- C4 counterexample: `iter_current_cars` pairs the current car with
id 1 against the next car with id 2 — a car IS paired with a different
car, contradicting id-matched pairing. -/
theorem car_pairing_claim_counterexample :
    pairingStates.iter_current_cars.map (fun p => (p.1.id, p.2.1.id, p.2.2.id)) =
      [(1, 1, 2)] ∧ (1 : Nat) ≠ 2 := by
  constructor
  · decide
  · decide

/-- Pairs of a three-way positional zip have componentwise-equal images
under `f` whenever the three lists have equal images under `f`. -/
theorem zip3_map_aligned {α β : Type} (f : α → β) :
    ∀ (as bs cs : List α), as.map f = bs.map f → bs.map f = cs.map f →
      ∀ p ∈ as.zip (bs.zip cs), f p.1 = f p.2.1 ∧ f p.2.1 = f p.2.2 := by
  intro as
  induction as with
  | nil => intro bs cs _ _ p hp; simp at hp
  | cons a as ih =>
      intro bs cs h1 h2 p hp
      cases bs with
      | nil => simp at h1
      | cons b bs =>
          cases cs with
          | nil => simp at h2
          | cons c cs =>
              simp only [List.map_cons, List.cons.injEq] at h1 h2
              simp only [List.zip_cons_cons, List.mem_cons] at hp
              rcases hp with rfl | hp
              · exact ⟨h1.1, h2.1⟩
              · exact ih bs cs h1.2 h2.2 p hp

/-- C4 (amended): `iter_current_cars` pairs cars positionally, not by
id — a three-way zip of the `last`/`current`/`next` car lists that
truncates to the shortest list (so a trailing car absent from one list
yields no pair), with ids never consulted.  This theorem proves the
truncating length of the pairing, and that whenever the three lists
carry the same car ids in the same order every interpolation pair has
matching ids; the counterexample shows that a list which differs can
instead pair a current car with a different car's state. -/
theorem car_pairing_positional_amended (s : GameStates)
    (h1 : s.last.cars.map CarInfo.id = s.current.cars.map CarInfo.id)
    (h2 : s.current.cars.map CarInfo.id = s.next.cars.map CarInfo.id) :
    s.iter_current_cars.length =
      min s.last.cars.length (min s.current.cars.length s.next.cars.length) ∧
    ∀ p ∈ s.iter_current_cars, p.1.id = p.2.1.id ∧ p.2.1.id = p.2.2.id := by
  constructor
  · simp [GameStates.iter_current_cars, List.length_zip]
  · intro p hp
    exact zip3_map_aligned CarInfo.id s.last.cars s.current.cars s.next.cars h1 h2 p hp

/-- A buffer whose three generations list the same car ids 3, 4 in the
same order. -/
def alignedStates : GameStates :=
  { last := { GameState.default with cars := [mkCar 3, mkCar 4] }
    current := { GameState.default with cars := [mkCar 3, mkCar 4] }
    next := { GameState.default with cars := [mkCar 3, mkCar 4] } }

/-- C4 witness: the amended pairing theorem applied to a concrete
buffer with id-aligned car lists — its truncating length and the
concrete pair of id-3 cars. -/
theorem car_pairing_positional_amended_witness :
    (alignedStates.last.cars.map CarInfo.id =
      alignedStates.current.cars.map CarInfo.id) ∧
    (alignedStates.current.cars.map CarInfo.id =
      alignedStates.next.cars.map CarInfo.id) ∧
    alignedStates.iter_current_cars.length =
      min alignedStates.last.cars.length
        (min alignedStates.current.cars.length alignedStates.next.cars.length) ∧
    ((mkCar 3, mkCar 3, mkCar 3).1.id = (mkCar 3, mkCar 3, mkCar 3).2.1.id ∧
      (mkCar 3, mkCar 3, mkCar 3).2.1.id = (mkCar 3, mkCar 3, mkCar 3).2.2.id) :=
  ⟨by decide, by decide,
    (car_pairing_positional_amended alignedStates (by decide) (by decide)).1,
    (car_pairing_positional_amended alignedStates (by decide) (by decide)).2
      (mkCar 3, mkCar 3, mkCar 3) (by decide)⟩

/-- C5 counterexample: the computed `lerp_amount` is not confined to
[0,1].  With bracket ticks 100→101 at tick rate 1 (a 1-second span) and
2 seconds of scaled elapsed time, `lerp_amount` evaluates to 2 — the
code never clamps it. -/
theorem lerp_amount_unclamped_counterexample :
    lerp_amount 100 101 1 2 1 = some 2 ∧ ¬((2 : ℚ) ≤ 1) := by
  constructor
  · norm_num [lerp_amount, total_time_delta, checkedDiv]
  · norm_num

/-- C5 (amended): `lerp_amount` is scaled elapsed wall-clock time
divided by the bracket's tick-time span, and is NOT clamped; it lies in
[0,1] exactly while the scaled elapsed time has not exceeded the span
(it is nonnegative, and ≤ 1 requires `elapsed * speed ≤ total`).  The
endpoint identities do hold: at lerp amount 0 the interpolated ball
position equals `last.ball.pos`, and at 1 it equals `next.ball.pos`. -/
theorem lerp_amount_bracket_amended
    (last_tick next_tick : Nat) (rate elapsed speed total t : ℚ) (a b : Vec3Q)
    (htot : total_time_delta last_tick next_tick rate = some total)
    (hpos : 0 < total)
    (h0 : 0 ≤ elapsed * speed)
    (h1 : elapsed * speed ≤ total)
    (hla : lerp_amount last_tick next_tick rate elapsed speed = some t) :
    (0 ≤ t ∧ t ≤ 1) ∧
    interpolate_ball_pos a b 0 = a ∧ interpolate_ball_pos a b 1 = b := by
  have hne : total ≠ 0 := ne_of_gt hpos
  rw [lerp_amount, htot] at hla
  simp only [Option.bind, checkedDiv, if_neg hne, Option.some.injEq] at hla
  subst hla
  refine ⟨⟨div_nonneg h0 hpos.le, (div_le_one hpos).mpr h1⟩, ?_, ?_⟩
  · cases a; cases b
    simp [interpolate_ball_pos, Vec3Q.lerp, lerpQ]
  · cases a; cases b
    simp only [interpolate_ball_pos, Vec3Q.lerp, lerpQ, Vec3Q.mk.injEq]
    refine ⟨by ring, by ring, by ring⟩

/-- C5 witness: the amended bracket statement at ticks 100→101, tick
rate 1, scaled elapsed time 1/2, on concrete ball positions. -/
theorem lerp_amount_bracket_amended_witness :
    (total_time_delta 100 101 1 = some 1 ∧ (0 : ℚ) < 1 ∧
      (0 : ℚ) ≤ (1 / 2 : ℚ) * 1 ∧ ((1 / 2 : ℚ) * 1 ≤ 1) ∧
      lerp_amount 100 101 1 (1 / 2) 1 = some (1 / 2)) ∧
    ((0 : ℚ) ≤ 1 / 2 ∧ (1 / 2 : ℚ) ≤ 1) ∧
    interpolate_ball_pos ⟨1, 2, 3⟩ ⟨4, 5, 6⟩ 0 = ⟨1, 2, 3⟩ ∧
    interpolate_ball_pos ⟨1, 2, 3⟩ ⟨4, 5, 6⟩ 1 = ⟨4, 5, 6⟩ :=
  ⟨⟨by norm_num [total_time_delta, checkedDiv], by norm_num, by norm_num, by norm_num,
      by norm_num [lerp_amount, total_time_delta, checkedDiv]⟩,
    lerp_amount_bracket_amended 100 101 1 (1 / 2) 1 1 (1 / 2) ⟨1, 2, 3⟩ ⟨4, 5, 6⟩
      (by norm_num [total_time_delta, checkedDiv]) (by norm_num) (by norm_num)
      (by norm_num) (by norm_num [lerp_amount, total_time_delta, checkedDiv])⟩

/-- C6: every per-frame smoothing division by `tick_rate` is performed
unconditionally — at `tick_rate = 0` each of the delta-time
computations of `update_ball_rotation`, `interpolate_calc_next_ball_rot`
and `interpolate_packets` attempts a division by zero (`none` in the
checked embedding; IEEE infinity or NaN in the source) instead of
skipping the frame and holding `current`. -/
theorem tick_rate_zero_division (tick lgt last_tick next_tick : Nat)
    (elapsed speed : ℚ) :
    update_ball_rotation_delta_time tick lgt 0 = Option.none ∧
    interpolate_calc_next_ball_rot_delta_time last_tick next_tick 0 = Option.none ∧
    total_time_delta last_tick next_tick 0 = Option.none ∧
    lerp_amount last_tick next_tick 0 elapsed speed = Option.none := by
  refine ⟨?_, ?_, ?_, ?_⟩ <;>
    simp [update_ball_rotation_delta_time, interpolate_calc_next_ball_rot_delta_time,
      total_time_delta, lerp_amount, checkedDiv]

/-- C7: when the magnitude of `ang_vel * dt` is at or below
`f32::EPSILON`, both the ball and the car rotation integrations leave
the rotation matrix unchanged — the axis is never normalized, so the
guarded division (and hence any NaN) never happens. -/
theorem ang_vel_epsilon_guard (v : Vec3R) (dt : ℝ) (rot_b rot_c : Mat3R)
    (h : (v.scale dt).length ≤ EPSILON) :
    update_ball_rotation_rot v dt rot_b = rot_b ∧
    extrapolate_car_rot v dt rot_c = rot_c := by
  constructor
  · simp only [update_ball_rotation_rot]
    rw [if_neg (not_lt.mpr h)]
  · simp only [extrapolate_car_rot]
    rw [if_neg (not_lt.mpr h)]

/-- An angular velocity of magnitude `1e-9`. -/
noncomputable def vTiny : Vec3R := ⟨1e-9, 0, 0⟩

/-- The identity rotation matrix. -/
noncomputable def rotIdent : Mat3R := ⟨⟨1, 0, 0⟩, ⟨0, 1, 0⟩, ⟨0, 0, 1⟩⟩

/-- C7 witness: the epsilon guard at the spec's example magnitude
`1e-9` (with `dt = 1`): the norm is at most `f32::EPSILON` and both
rotation updates leave the identity rotation unchanged. -/
theorem ang_vel_epsilon_guard_witness :
    (vTiny.scale 1).length ≤ EPSILON ∧
    update_ball_rotation_rot vTiny 1 rotIdent = rotIdent ∧
    extrapolate_car_rot vTiny 1 rotIdent = rotIdent := by
  have h : (vTiny.scale 1).length ≤ EPSILON := by
    simp only [vTiny, Vec3R.scale, Vec3R.length]
    rw [show (1e-9 : ℝ) * 1 * ((1e-9 : ℝ) * 1) + (0 : ℝ) * 1 * ((0 : ℝ) * 1) +
        (0 : ℝ) * 1 * ((0 : ℝ) * 1) = ((1e-9 : ℝ)) ^ 2 by ring]
    rw [Real.sqrt_sq (by norm_num)]
    rw [EPSILON]
    norm_num
  exact ⟨h, (ang_vel_epsilon_guard vTiny 1 rotIdent rotIdent h).1,
    (ang_vel_epsilon_guard vTiny 1 rotIdent rotIdent h).2⟩

/-- C8: round trip of every codec — for every well-formed `GameState`
(any car/pad lists whose counts fit the `u32` length prefix, empty
through maximal), scalar speed bit pattern, paused flag and
render-overlay message, decoding the encoding returns the value. -/
theorem codec_round_trip :
    (∀ g : GameState, g.WF = true →
      decodeGameState (encodeGameState g) = some g) ∧
    (∀ bits : Nat, bits < 2 ^ 32 → decodeSpeed (encodeSpeed bits) = some bits) ∧
    (∀ b : Bool, decodePaused (encodePaused b) = some b) ∧
    (∀ m : RenderMessage, m.WF = true →
      decodeRenderMessage (encodeRenderMessage m) = some m) :=
  ⟨fun _ h => decodeGameState_encodeGameState h,
   fun _ h => decodeSpeed_encodeSpeed h,
   decodePaused_encodePaused,
   fun _ h => decodeRenderMessage_encodeRenderMessage h⟩

/-- A snapshot with one car and one boost pad. -/
def sampleState : GameState :=
  { GameState.default with
      tick_count := 100
      tick_rate := 120
      cars := [mkCar 1]
      pads := [{ position := ⟨1, 2, 3⟩, is_big := true, state := ⟨true⟩ }] }

/-- C8 witness: the round-trip theorem applied to the default snapshot
(empty car/pad lists), a one-car/one-pad snapshot, a concrete speed bit
pattern, the paused flag, and both render-message variants. -/
theorem codec_round_trip_witness :
    (GameState.default.WF = true ∧
      decodeGameState (encodeGameState GameState.default) = some GameState.default) ∧
    (sampleState.WF = true ∧
      decodeGameState (encodeGameState sampleState) = some sampleState) ∧
    ((12345 : Nat) < 2 ^ 32 ∧ decodeSpeed (encodeSpeed 12345) = some 12345) ∧
    decodePaused (encodePaused true) = some true ∧
    ((RenderMessage.removeRender 7).WF = true ∧
      decodeRenderMessage (encodeRenderMessage (RenderMessage.removeRender 7)) =
        some (RenderMessage.removeRender 7)) ∧
    ((RenderMessage.addRender 7 [⟨1, ⟨1, 2, 3⟩, ⟨4, 5, 6⟩, 9⟩]).WF = true ∧
      decodeRenderMessage
          (encodeRenderMessage (RenderMessage.addRender 7 [⟨1, ⟨1, 2, 3⟩, ⟨4, 5, 6⟩, 9⟩])) =
        some (RenderMessage.addRender 7 [⟨1, ⟨1, 2, 3⟩, ⟨4, 5, 6⟩, 9⟩])) :=
  ⟨⟨by decide, codec_round_trip.1 GameState.default (by decide)⟩,
   ⟨by decide, codec_round_trip.1 sampleState (by decide)⟩,
   ⟨by decide, codec_round_trip.2.1 12345 (by decide)⟩,
   codec_round_trip.2.2.1 true,
   ⟨by decide, codec_round_trip.2.2.2 (RenderMessage.removeRender 7) (by decide)⟩,
   ⟨by decide, codec_round_trip.2.2.2 (RenderMessage.addRender 7 [⟨1, ⟨1, 2, 3⟩, ⟨4, 5, 6⟩, 9⟩])
      (by decide)⟩⟩

/-- C9 counterexample: tracking car id 5 while no car entity with that
id exists in the scene (and no such car is in the snapshot either), the
frame does not skip — the `.unwrap()` on the scene-car query panics. -/
theorem camera_missing_car_counterexample :
    (update_camera_step (.trackCar 5) false [] [] ⟨0, 0, 0⟩).1 =
      CameraFrameResult.panicked ∧
    CameraFrameResult.panicked ≠ CameraFrameResult.skipped := by
  constructor
  · decide
  · decide

/-- C9 (amended): when a car entity with the target id exists in the
scene but no car with that id is in `current.cars`, the camera frame is
skipped without error — for a tracked car, and for a director camera
whose id is nonzero and whose re-election timer has not finished.  (When
no matching scene entity exists, the update instead panics, as the
counterexample shows.) -/
theorem camera_missing_car_amended (id : Nat) (scene : List Nat)
    (cars : List CamCar) (ball : Vec3Q) (tf : Bool)
    (hscene : scene.contains id = true)
    (hmiss : (cars.find? fun c => c.id == id) = Option.none) :
    (update_camera_step (.trackCar id) tf scene cars ball).1 =
      CameraFrameResult.skipped ∧
    (id ≠ 0 →
      (update_camera_step (.director id) false scene cars ball).1 =
        CameraFrameResult.skipped) := by
  have hmem : id ∈ scene := by simpa using hscene
  constructor
  · simp [update_camera_step, camera_car_lookup, hmem, hmiss]
  · intro hid
    simp [update_camera_step, camera_car_lookup, hmem, hmiss, hid]

/-- C9 witness: the amended skip behaviour at target id 7, a scene
containing car entity 7, and an empty snapshot car list. -/
theorem camera_missing_car_amended_witness :
    ([7].contains 7 = true) ∧
    (([] : List CamCar).find? (fun c => c.id == 7) = Option.none) ∧
    (update_camera_step (.trackCar 7) false [7] [] ⟨0, 0, 0⟩).1 =
      CameraFrameResult.skipped ∧
    (update_camera_step (.director 7) false [7] [] ⟨0, 0, 0⟩).1 =
      CameraFrameResult.skipped :=
  ⟨by decide, by decide,
   (camera_missing_car_amended 7 [7] [] ⟨0, 0, 0⟩ false (by decide) (by decide)).1,
   (camera_missing_car_amended 7 [7] [] ⟨0, 0, 0⟩ false (by decide) (by decide)).2
     (by decide)⟩

/-- C10: evaluating the CLI port extraction.  With two arguments
"34000" and "35000" the secondary (bind) port is 34000, not 35000: the
source parses `std::env::args().nth(1)` — the FIRST positional
argument — for BOTH ports, so the second argument is ignored and the
secondary default 45243 is only used when the first argument is absent
or unparsable. -/
theorem cli_ports_eval :
    main_ports ["34000", "35000"] = (34000, 34000) ∧
    main_ports [] = (34254, 45243) ∧
    main_ports ["notaport"] = (34254, 45243) := by
  refine ⟨?_, ?_, ?_⟩ <;> decide

end RLViser
